import Mathlib

/-!
# Formal model of the Flipswitch JS SDK real-time synchronization core

Shallow embedding of the cache (`src/cache.ts`), SSE streaming client
(`sse.ts`) and synchronization coordinator (`provider.ts`, FlipswitchProvider),
with theorems checking the claims of the specification against the code.

JavaScript `Map`s are modelled as association lists, `Date.now()` as an
explicit `now : Nat` argument, JS truthiness of optional strings explicitly
(the empty string is falsy), and callbacks as returned event lists.
-/

namespace Flipswitch

/-! ## JS helpers: Map operations and truthiness -/

/-- JS `Map.prototype.get`, on an association-list model of a `Map`. -/
def mapGet {β : Type} (m : List (String × β)) (k : String) : Option β :=
  (m.find? (fun p => p.1 == k)).map (fun p => p.2)

/-- JS `Map.prototype.delete`: removes the entry for `k` (keys are unique in a
`Map`, so filtering is the same as deleting the one entry). -/
def mapDelete {β : Type} (m : List (String × β)) (k : String) : List (String × β) :=
  m.filter (fun p => p.1 != k)

/-- JS `Map.prototype.set`: overwrites the entry for `k` if present,
otherwise appends it. -/
def mapSet {β : Type} (m : List (String × β)) (k : String) (v : β) : List (String × β) :=
  if m.any (fun p => p.1 == k) then
    m.map (fun p => if p.1 == k then (k, v) else p)
  else m ++ [(k, v)]

/-- JS truthiness of a `string | null | undefined` value: `null`/`undefined`
and the empty string are falsy, every other string is truthy. -/
def jsTruthy : Option String → Bool
  | none => false
  | some s => s != ""

/-! ## Data model (src/types.ts) -/

/-- Model of `FlagChangeEvent` from `src/types.ts`: `flagKey : string | null` and a
timestamp. Both fields are modelled as `Option String`, `none` standing for
JS `null`/`undefined`. -/
structure FlagChangeEvent where
  flagKey : Option String
  timestamp : Option String
deriving DecidableEq, Repr

/-! ## FlagCache (src/cache.ts) -/

/-- Model of `CacheEntry<T>` from `src/cache.ts`. -/
structure CacheEntry (α : Type) where
  value : α
  expiresAt : Nat
deriving DecidableEq, Repr

/-- Model of `FlagCache` from `src/cache.ts`: a `Map<string, CacheEntry<unknown>>`
plus a TTL. -/
structure FlagCache (α : Type) where
  cache : List (String × CacheEntry α)
  ttlMs : Nat
deriving DecidableEq, Repr

/-- Model of `FlagCache.get`: returns the value if present and unexpired; deletes the
entry (lazy eviction) and returns `undefined` if expired; `Date.now()` is the
explicit `now` argument. Returns the result together with the post-state. -/
def FlagCache.get {α : Type} (c : FlagCache α) (now : Nat) (key : String) :
    Option α × FlagCache α :=
  match mapGet c.cache key with
  | none => (none, c)
  | some entry =>
    if now > entry.expiresAt then
      (none, { c with cache := mapDelete c.cache key })
    else
      (some entry.value, c)

/-- Model of `FlagCache.set`: stores the value with `expiresAt = now + ttlMs`. -/
def FlagCache.set {α : Type} (c : FlagCache α) (now : Nat) (key : String) (value : α) :
    FlagCache α :=
  { c with cache := mapSet c.cache key { value := value, expiresAt := now + c.ttlMs } }

/-- Model of `FlagCache.invalidate(key?)`: `if (key)` — a JS truthiness test, so both
`undefined` (`none`) and the empty string take the `clear()` branch. -/
def FlagCache.invalidate {α : Type} (c : FlagCache α) (key : Option String) : FlagCache α :=
  if jsTruthy key then
    { c with cache := mapDelete c.cache (key.getD "") }
  else
    { c with cache := [] }

/-- Model of `FlagCache.handleFlagChange`: `if (event.flagKey)` (JS truthiness) then
`invalidate(event.flagKey)` else `invalidate()`. -/
def FlagCache.handleFlagChange {α : Type} (c : FlagCache α) (e : FlagChangeEvent) :
    FlagCache α :=
  if jsTruthy e.flagKey then
    c.invalidate e.flagKey
  else
    c.invalidate none

/-! ## Association-list map lemmas -/

lemma mapGet_cons {β : Type} (a : String) (b : β) (t : List (String × β)) (k : String) :
    mapGet ((a, b) :: t) k = if a = k then some b else mapGet t k := by
  by_cases h : a = k <;> simp [mapGet, List.find?_cons, h]

lemma mapDelete_cons {β : Type} (a : String) (b : β) (t : List (String × β)) (k : String) :
    mapDelete ((a, b) :: t) k =
      if a = k then mapDelete t k else (a, b) :: mapDelete t k := by
  by_cases h : a = k <;> simp [mapDelete, List.filter_cons, h]

lemma mapGet_mapDelete_self {β : Type} (m : List (String × β)) (k : String) :
    mapGet (mapDelete m k) k = none := by
  induction m with
  | nil => rfl
  | cons p t ih =>
    obtain ⟨a, b⟩ := p
    rw [mapDelete_cons]
    by_cases h : a = k
    · rw [if_pos h]
      exact ih
    · rw [if_neg h, mapGet_cons, if_neg h]
      exact ih

lemma mapGet_mapDelete_ne {β : Type} (m : List (String × β)) (k k' : String)
    (h : k' ≠ k) : mapGet (mapDelete m k) k' = mapGet m k' := by
  induction m with
  | nil => rfl
  | cons p t ih =>
    obtain ⟨a, b⟩ := p
    rw [mapDelete_cons]
    by_cases hak : a = k
    · have hak' : ¬ a = k' := fun hc => h (hc.symm.trans hak)
      rw [if_pos hak, ih, mapGet_cons, if_neg hak']
    · rw [if_neg hak, mapGet_cons, mapGet_cons]
      by_cases hak' : a = k'
      · rw [if_pos hak', if_pos hak']
      · rw [if_neg hak', if_neg hak']
        exact ih

/-! ## Cache claims -/

/-- Concrete cache used to refute the empty-string part of the selective
invalidation claim. -/
def c3Cache : FlagCache Nat :=
  { cache := [("a", { value := 1, expiresAt := 100 }), ("", { value := 2, expiresAt := 100 })],
    ttlMs := 50 }

/-- C3 counterexample: `invalidate("")` does NOT remove only the empty-string
entry of the empty-string key — the JS truthiness test `if (key)` is false for `""`, so the
whole cache is cleared and the unrelated entry for `"a"` disappears. -/
theorem invalidate_empty_key_counterexample :
    mapGet ((c3Cache.invalidate (some "")).cache) "a" = none
    ∧ mapGet c3Cache.cache "a" = some { value := 1, expiresAt := 100 }
    ∧ (c3Cache.invalidate (some "")).cache = [] := by
  refine ⟨?_, ?_, ?_⟩ <;> decide

/-- C3 (amended): for every NON-EMPTY key `k`, `invalidate(k)` removes exactly
the entry of `k` and leaves every other entry unchanged; `handleFlagChange` with a
non-empty `flagKey = k` behaves as `invalidate(k)`; a `null` — or empty-string —
`flagKey` clears the entire cache. -/
theorem invalidate_selective {α : Type} (c : FlagCache α) (k : String) (hk : k ≠ "") :
    mapGet ((c.invalidate (some k)).cache) k = none
    ∧ (∀ k', k' ≠ k → mapGet ((c.invalidate (some k)).cache) k' = mapGet c.cache k')
    ∧ (∀ e : FlagChangeEvent, e.flagKey = some k → c.handleFlagChange e = c.invalidate (some k))
    ∧ (∀ e : FlagChangeEvent, e.flagKey = none ∨ e.flagKey = some "" →
        (c.handleFlagChange e).cache = [])
    ∧ (c.invalidate none).cache = [] := by
  have htruthy : jsTruthy (some k) = true := by
    simp [jsTruthy, hk]
  refine ⟨?_, ?_, ?_, ?_, ?_⟩
  · simp [FlagCache.invalidate, htruthy, mapGet_mapDelete_self]
  · intro k' hne
    simp [FlagCache.invalidate, htruthy, mapGet_mapDelete_ne _ _ _ hne]
  · intro e he
    simp [FlagCache.handleFlagChange, he, htruthy]
  · intro e he
    rcases he with he | he <;> simp [FlagCache.handleFlagChange, he, jsTruthy, FlagCache.invalidate]
  · simp [FlagCache.invalidate, jsTruthy]

/-- Concrete cache for the C3 witness. -/
def c3WitnessCache : FlagCache Nat :=
  { cache := [("a", { value := 1, expiresAt := 100 }), ("b", { value := 2, expiresAt := 100 })],
    ttlMs := 50 }

/-- C3 witness: the amended selective-invalidation theorem at a concrete cache
and key. -/
theorem invalidate_selective_witness :
    mapGet ((c3WitnessCache.invalidate (some "a")).cache) "a" = none
    ∧ mapGet ((c3WitnessCache.invalidate (some "a")).cache) "b"
        = some { value := 2, expiresAt := 100 }
    ∧ (c3WitnessCache.invalidate none).cache = [] := by
  have h := invalidate_selective c3WitnessCache "a" (by decide)
  refine ⟨h.1, ?_, h.2.2.2.2⟩
  have hb := h.2.1 "b" (by decide)
  rw [hb]
  decide

/-- C10: `FlagCache.get` has no side effect beyond lazy eviction of the looked-up
key: a hit on an unexpired entry returns the value and leaves the cache state
completely unchanged; a miss leaves it unchanged; an expired entry for `k`
is deleted, and the entry of every other key is untouched. -/
theorem cache_get_frame {α : Type} (c : FlagCache α) (now : Nat) (k : String) :
    (∀ e : CacheEntry α, mapGet c.cache k = some e → ¬ now > e.expiresAt →
        c.get now k = (some e.value, c))
    ∧ (mapGet c.cache k = none → c.get now k = (none, c))
    ∧ (∀ e : CacheEntry α, mapGet c.cache k = some e → now > e.expiresAt →
        (c.get now k).1 = none
        ∧ ((c.get now k).2).cache = mapDelete c.cache k
        ∧ mapGet ((c.get now k).2).cache k = none
        ∧ (∀ k', k' ≠ k → mapGet ((c.get now k).2).cache k' = mapGet c.cache k')
        ∧ ((c.get now k).2).ttlMs = c.ttlMs) := by
  refine ⟨?_, ?_, ?_⟩
  · intro e he hexp
    simp [FlagCache.get, he, hexp]
  · intro he
    simp [FlagCache.get, he]
  · intro e he hexp
    refine ⟨?_, ?_, ?_, ?_, ?_⟩
    · simp [FlagCache.get, he, hexp]
    · simp [FlagCache.get, he, hexp]
    · simp [FlagCache.get, he, hexp, mapGet_mapDelete_self]
    · intro k' hne
      simp [FlagCache.get, he, hexp, mapGet_mapDelete_ne _ _ _ hne]
    · simp [FlagCache.get, he, hexp]

/-- Concrete cache for the C10 witness: `"a"` unexpired, `"old"` expired. -/
def c10Cache : FlagCache Nat :=
  { cache := [("a", { value := 5, expiresAt := 100 }), ("old", { value := 7, expiresAt := 10 })],
    ttlMs := 50 }

/-- C10 witness: the frame theorem at a concrete cache — a fresh hit leaves the
cache untouched, and evicting the expired key `"old"` leaves `"a"` intact. -/
theorem cache_get_frame_witness :
    c10Cache.get 50 "a" = (some 5, c10Cache)
    ∧ c10Cache.get 50 "missing" = (none, c10Cache)
    ∧ ((c10Cache.get 50 "old").2).cache = mapDelete c10Cache.cache "old"
    ∧ mapGet ((c10Cache.get 50 "old").2).cache "a"
        = some { value := 5, expiresAt := 100 } := by
  have h := cache_get_frame c10Cache 50 "a"
  have hold := cache_get_frame c10Cache 50 "old"
  have hmiss := cache_get_frame c10Cache 50 "missing"
  refine ⟨h.1 { value := 5, expiresAt := 100 } (by decide) (by decide),
    hmiss.2.1 (by decide), ?_, ?_⟩
  · exact (hold.2.2 { value := 7, expiresAt := 10 } (by decide) (by decide)).2.1
  · have ha := (hold.2.2 { value := 7, expiresAt := 10 } (by decide) (by decide)).2.2.2.1 "a"
      (by decide)
    rw [ha]
    decide

/-! ## JSON model (the platform builtin JSON.parse, restricted)

`handleEvent` calls `JSON.parse` on event payloads. The payloads used by the SDK
event protocol are flat objects whose fields are strings or `null`, so
`JSON.parse` is modelled as a recursive-descent parser for exactly that
fragment (strings without escape sequences, `null`, flat objects); any input
outside the fragment parses to `none`, modelling a thrown `SyntaxError`. -/

/-- JSON values within the modelled fragment. -/
inductive JVal where
  | jstr : String → JVal
  | jnull : JVal
deriving DecidableEq, Repr

/-- A JSON object as a field list. -/
abbrev JObj := List (String × JVal)

/-- JSON insignificant whitespace. -/
def isJsonWs (c : Char) : Bool :=
  c = ' ' || c = '\n' || c = '\t' || c = '\r'

/-- Skip leading JSON whitespace. -/
def skipWs : List Char → List Char
  | [] => []
  | c :: cs => if isJsonWs c then skipWs cs else c :: cs

/-- Parse the remainder of a JSON string after the opening quote; escape
sequences are outside the modelled fragment. -/
def parseStrBody : List Char → Option (String × List Char)
  | [] => none
  | c :: cs =>
    if c = '"' then some ("", cs)
    else if c = '\\' then none
    else match parseStrBody cs with
      | some (s, r) => some (String.mk (c :: s.toList), r)
      | none => none

/-- Parse one JSON value (string or `null`). -/
def parseJVal (cs : List Char) : Option (JVal × List Char) :=
  match skipWs cs with
  | '"' :: rest =>
    match parseStrBody rest with
    | some (s, r) => some (JVal.jstr s, r)
    | none => none
  | 'n' :: 'u' :: 'l' :: 'l' :: rest => some (JVal.jnull, rest)
  | _ => none

/-- Parse the members of a JSON object after the opening brace, up to and
including the closing brace; `fuel` bounds the recursion by input length. -/
def parseMembers : Nat → List Char → Option (JObj × List Char)
  | 0, _ => none
  | fuel + 1, cs =>
    match skipWs cs with
    | '"' :: rest =>
      match parseStrBody rest with
      | some (key, r1) =>
        match skipWs r1 with
        | ':' :: r2 =>
          match parseJVal r2 with
          | some (v, r3) =>
            match skipWs r3 with
            | ',' :: r4 =>
              match parseMembers fuel r4 with
              | some (obj, r5) => some ((key, v) :: obj, r5)
              | none => none
            | '\x7d' :: r4 => some ([(key, v)], r4)
            | _ => none
          | none => none
        | _ => none
      | none => none
    | _ => none

/-- Model of `JSON.parse` for the flat-object fragment: the whole input must be
one object with optional surrounding whitespace. -/
def jsonParseObj (s : String) : Option JObj :=
  match skipWs s.toList with
  | '\x7b' :: rest =>
    match skipWs rest with
    | '\x7d' :: r2 => if (skipWs r2).isEmpty then some [] else none
    | _ =>
      match parseMembers (rest.length + 1) rest with
      | some (obj, r) => if (skipWs r).isEmpty then some obj else none
      | none => none
  | _ => none

/-- Model of JS property access `obj.k` on a parsed object, as a string or
`null`/`undefined` (`none`). -/
def jGetStr (o : JObj) (k : String) : Option String :=
  match o.find? (fun p => p.1 == k) with
  | some (_, JVal.jstr s) => some s
  | _ => none

/-! ## SSE stream parsing (sse.ts, SseClient.connectWithFetch / handleEvent)

Side effects of the fetch read loop on the `onFlagChange` callback are modelled
by returning the list of emitted events. String primitives used by the JS code
(`split('\n')`, `startsWith`, `slice(n)`, `trim()`) are modelled structurally
over character lists so they evaluate by kernel reduction. -/

/-- Accumulator for the JS split on newline characters. -/
def splitNlAux : List Char → List Char → List String
  | [], cur => [String.mk cur.reverse]
  | c :: cs, cur =>
    if c = '\n' then String.mk cur.reverse :: splitNlAux cs []
    else splitNlAux cs (c :: cur)

/-- Model of the JS split of `s` on newline characters. -/
def jsSplitNl (s : String) : List String :=
  splitNlAux s.toList []

/-- Model of JS `s.startsWith(pre)`. -/
def jsStartsWith (s pre : String) : Bool :=
  pre.toList.isPrefixOf s.toList

/-- Model of JS `s.slice(n)` for a nonnegative `n`. -/
def jsSlice (s : String) (n : Nat) : String :=
  String.mk (s.toList.drop n)

/-- Model of JS `s.trim()` (whitespace restricted to space/newline/tab/CR, which covers
the SSE wire format). -/
def jsTrim (s : String) : String :=
  String.mk (((s.toList.dropWhile isJsonWs).reverse.dropWhile isJsonWs).reverse)

/-- The `for (const line of lines)` body of `processStream`: `event:` lines set
the pending event type, `data:` lines set the pending payload, and an empty
line dispatches `(eventType, eventData)` — but only when `eventData` is truthy
(non-empty). Returns the dispatched `(eventType, eventData)` pairs in order. -/
def processLines : List String → String → String → List (String × String)
  | [], _, _ => []
  | line :: rest, evType, evData =>
    if jsStartsWith line "event:" then
      processLines rest (jsTrim (jsSlice line 6)) evData
    else if jsStartsWith line "data:" then
      processLines rest evType (jsTrim (jsSlice line 5))
    else if line = "" ∧ evData ≠ "" then
      (evType, evData) :: processLines rest "" ""
    else
      processLines rest evType evData

/-- One iteration of the read loop on a decoded chunk: append to the buffer,
split on newlines, keep the trailing partial line as the new buffer
(`buffer = lines.pop() || ''`), and process the complete lines. -/
def processChunk (buffer chunk : String) : String × List (String × String) :=
  let lines := jsSplitNl (buffer ++ chunk)
  ((lines.getLast?).getD "", processLines lines.dropLast "" "")

/-- Model of `SseClient.handleEvent`: `heartbeat` is ignored; `flag-updated` emits the
parsed single-flag event; `config-updated` emits a bulk (null-key) event;
`api-key-rotated` only logs a warning; unknown types fall through; a JSON
parse failure is caught (and logged), emitting nothing. Returns the list of
`onFlagChange` invocations. -/
def handleEvent (eventType data : String) : List FlagChangeEvent :=
  if eventType = "heartbeat" then []
  else if eventType = "flag-updated" then
    match jsonParseObj data with
    | some o => [{ flagKey := jGetStr o "flagKey", timestamp := jGetStr o "timestamp" }]
    | none => []
  else if eventType = "config-updated" then
    match jsonParseObj data with
    | some o => [{ flagKey := none, timestamp := jGetStr o "timestamp" }]
    | none => []
  else if eventType = "api-key-rotated" then
    match jsonParseObj data with
    | some _ => []
    | none => []
  else []

/-- Dispatches produced by feeding a sequence of chunks to the
read loop of one connection, starting from an empty buffer. -/
def chunkDispatches (chunks : List String) : List (String × String) :=
  (chunks.foldl
    (fun acc chunk =>
      let r := processChunk acc.1 chunk
      (r.1, acc.2 ++ r.2))
    (("", []) : String × List (String × String))).2

/-- All `onFlagChange` invocations produced by a sequence of chunks. -/
def chunkEmissions (chunks : List String) : List FlagChangeEvent :=
  (chunkDispatches chunks).foldr (fun p acc => handleEvent p.1 p.2 ++ acc) []

/-! ## Stream-parsing claims -/

/-- Chunk from the spec test vector: a well-formed `flag-updated` frame. -/
def c1Chunk : String :=
  "event: flag-updated\ndata: \x7b\"flagKey\":\"my-flag\",\"timestamp\":\"2025-01-01T00:00:00Z\"\x7d\n\n"

/-- Chunk with a `heartbeat` frame carrying the same payload framing. -/
def heartbeatChunk : String :=
  "event: heartbeat\ndata: \x7b\"flagKey\":\"my-flag\",\"timestamp\":\"2025-01-01T00:00:00Z\"\x7d\n\n"

/-- Chunk with an `api-key-rotated` frame. -/
def apiKeyRotatedChunk : String :=
  "event: api-key-rotated\ndata: \x7b\"validUntil\":\"2025-02-01T00:00:00Z\",\"timestamp\":\"2025-01-01T00:00:00Z\"\x7d\n\n"

/-- Chunk with an unknown event type, framed the same way. -/
def unknownTypeChunk : String :=
  "event: mystery-event\ndata: \x7b\"flagKey\":\"my-flag\",\"timestamp\":\"2025-01-01T00:00:00Z\"\x7d\n\n"

/-- C1: the single-chunk `flag-updated` frame from the spec produces exactly one
`onFlagChange` invocation carrying the parsed flag key and timestamp, while
`heartbeat`, `api-key-rotated` and unknown event types framed the same way
produce zero invocations. -/
theorem sse_parse_flag_updated_emission :
    chunkEmissions [c1Chunk]
      = [{ flagKey := some "my-flag", timestamp := some "2025-01-01T00:00:00Z" }]
    ∧ chunkEmissions [heartbeatChunk] = []
    ∧ chunkEmissions [apiKeyRotatedChunk] = []
    ∧ chunkEmissions [unknownTypeChunk] = [] := by
  refine ⟨by decide, by decide, by decide, by decide⟩

/-- Chunk from the spec resilience vector: a `flag-updated` frame whose payload
is not valid JSON. -/
def malformedChunk : String :=
  "event: flag-updated\ndata: \x7bnot valid json!!!\n\n"

/-- C6: a recognized event with a malformed JSON payload emits no callback (the
parse error is caught), and processing continues on the same connection, so the
malformed frame followed by a valid `flag-updated` frame yields exactly one
invocation, for the valid event. -/
theorem malformed_payload_resilience :
    (∀ d : String, jsonParseObj d = none → handleEvent "flag-updated" d = [])
    ∧ chunkEmissions [malformedChunk, c1Chunk]
        = [{ flagKey := some "my-flag", timestamp := some "2025-01-01T00:00:00Z" }] := by
  constructor
  · intro d hd
    simp [handleEvent, hd]
  · decide

/-- Witness for C6 at the concrete malformed payload of the spec vector. -/
theorem malformed_payload_resilience_witness :
    handleEvent "flag-updated" "\x7bnot valid json!!!" = [] :=
  malformed_payload_resilience.1 "\x7bnot valid json!!!" (by decide)

/-- Helper for C9: every pair dispatched by the line loop has a non-empty data
payload, because the dispatch guard is `line === '' && eventData`. -/
lemma processLines_mem_data_ne {lines : List String} :
    ∀ et ed p, p ∈ processLines lines et ed → p.2 ≠ "" := by
  induction lines with
  | nil =>
    intro et ed p h
    simp [processLines] at h
  | cons line rest ih =>
    intro et ed p h
    rw [processLines] at h
    split_ifs at h with h1 h2 h3
    · exact ih _ _ p h
    · exact ih _ _ p h
    · rcases List.mem_cons.mp h with rfl | hm
      · exact h3.2
      · exact ih _ _ p hm
    · exact ih _ _ p h

/-- C9: a frame is dispatched only with a non-empty accumulated data payload —
every dispatched pair carries non-empty data, and a frame consisting of an
`event:` line with no `data:` line dispatches nothing and invokes no
callback. -/
theorem dispatch_requires_nonempty_data :
    (∀ (buffer chunk : String) (p : String × String),
        p ∈ (processChunk buffer chunk).2 → p.2 ≠ "")
    ∧ chunkDispatches ["event: flag-updated\n\n"] = []
    ∧ chunkEmissions ["event: flag-updated\n\n"] = [] := by
  refine ⟨?_, by decide, by decide⟩
  intro b c p h
  exact processLines_mem_data_ne _ _ p h

/-- Witness for C9: the universally quantified part applied to the dispatch
actually produced by the concrete valid frame. -/
theorem dispatch_requires_nonempty_data_witness :
    (("flag-updated",
        "\x7b\"flagKey\":\"my-flag\",\"timestamp\":\"2025-01-01T00:00:00Z\"\x7d")
      : String × String).2 ≠ "" :=
  dispatch_requires_nonempty_data.1 "" c1Chunk _ (by decide)

/-! ## SseClient connection state machine (sse.ts)

Model of the mutable fields of `SseClient` that the reconnect protocol reads
and writes. Timers are modelled by `pendingReconnect : Option Nat`, holding the
delay of the scheduled `setTimeout` (`none` when no timer is pending);
`clearTimeout` sets it back to `none`. `connectCount` counts executions of the
`connect()` body past its closed/paused guard, i.e. observed connection
attempts. Callback side effects irrelevant to the claims (status broadcast,
logging) are dropped; `status` itself is kept. -/

/-- Model of `SseConnectionStatus` from `src/types.ts`. -/
inductive ConnStatus where
  | disconnected
  | connecting
  | connected
  | error
deriving DecidableEq, Repr

/-- Constant `MIN_RETRY_DELAY` from sse.ts. -/
def MIN_RETRY_DELAY : Nat := 1000

/-- Constant `MAX_RETRY_DELAY` from sse.ts. -/
def MAX_RETRY_DELAY : Nat := 30000

/-- Mutable state of an `SseClient` instance. -/
structure SseState where
  retryDelay : Nat
  closed : Bool
  paused : Bool
  status : ConnStatus
  pendingReconnect : Option Nat
  connectCount : Nat
deriving DecidableEq, Repr

/-- Field initializers of `SseClient`. -/
def SseState.initial : SseState :=
  { retryDelay := MIN_RETRY_DELAY, closed := false, paused := false,
    status := ConnStatus.disconnected, pendingReconnect := none, connectCount := 0 }

/-- Model of `updateStatus`: set and broadcast the status. -/
def SseState.updateStatus (s : SseState) (st : ConnStatus) : SseState :=
  { s with status := st }

/-- Model of `scheduleReconnect`: no-op when closed; otherwise replace any
pending timer with one firing after the current `retryDelay`. -/
def SseState.scheduleReconnect (s : SseState) : SseState :=
  if s.closed then s
  else { s with pendingReconnect := some s.retryDelay }

/-- Model of `connect()`: no-op when closed or paused; otherwise abort the
previous attempt, transition to `connecting`, and start a new attempt (counted
by `connectCount`). -/
def SseState.connect (s : SseState) : SseState :=
  if s.closed || s.paused then s
  else ({ s with connectCount := s.connectCount + 1 }).updateStatus ConnStatus.connecting

/-- Model of the success path of `connectWithFetch` (HTTP ok with a body):
transition to `connected` and reset `retryDelay` to the minimum. -/
def SseState.onFetchSuccess (s : SseState) : SseState :=
  { s.updateStatus ConnStatus.connected with retryDelay := MIN_RETRY_DELAY }

/-- Model of the `done` branch of `processStream` (body exhausted without an
explicit error): `updateStatus` with `disconnected`, then `scheduleReconnect()`. -/
def SseState.onStreamDone (s : SseState) : SseState :=
  (s.updateStatus ConnStatus.disconnected).scheduleReconnect

/-- Model of the catch handlers of `connectWithFetch`/`processStream` (read or
connection error): when not closed, `updateStatus` with `error`, then
`scheduleReconnect()`. -/
def SseState.onStreamError (s : SseState) : SseState :=
  if s.closed then s
  else (s.updateStatus ConnStatus.error).scheduleReconnect

/-- Model of the `setTimeout` callback of `scheduleReconnect` firing: the timer
is consumed; if the client is not closed, `connect()` runs and then
`retryDelay` doubles, capped at `MAX_RETRY_DELAY`. A cancelled (`none`) timer
never fires. -/
def SseState.fireReconnect (s : SseState) : SseState :=
  match s.pendingReconnect with
  | none => s
  | some _ =>
    let s0 := { s with pendingReconnect := none }
    if s0.closed then s0
    else
      let s1 := s0.connect
      { s1 with retryDelay := min (s1.retryDelay * 2) MAX_RETRY_DELAY }

/-- Model of `pause()`: no-op when already paused or closed; otherwise abort
the connection, cancel the reconnect timer, and go `disconnected`. -/
def SseState.pause (s : SseState) : SseState :=
  if s.paused || s.closed then s
  else ({ s with paused := true, pendingReconnect := none }).updateStatus
    ConnStatus.disconnected

/-- Model of `resume()`: no-op unless paused and not closed; otherwise unpause,
reset the retry delay to the minimum, and `connect()`. -/
def SseState.resume (s : SseState) : SseState :=
  if !s.paused || s.closed then s
  else ({ s with paused := false, retryDelay := MIN_RETRY_DELAY }).connect

/-- Model of `close()`: mark closed, transition to `disconnected`, abort the
connection and cancel any pending reconnect timer. -/
def SseState.close (s : SseState) : SseState :=
  { ({ s with closed := true }).updateStatus ConnStatus.disconnected with
    pendingReconnect := none }

/-- External stimuli an `SseClient` instance can still receive after some
point in its life: an explicit `connect()` call, a reconnect timer firing, a
read/connection error, the stream ending, `pause()` and `resume()`. -/
inductive SseStimulus where
  | callConnect
  | timerFires
  | streamError
  | streamDone
  | callPause
  | callResume
deriving DecidableEq, Repr

/-- Apply one stimulus to the state. -/
def SseState.step (s : SseState) : SseStimulus → SseState
  | SseStimulus.callConnect => s.connect
  | SseStimulus.timerFires => s.fireReconnect
  | SseStimulus.streamError => s.onStreamError
  | SseStimulus.streamDone => s.onStreamDone
  | SseStimulus.callPause => s.pause
  | SseStimulus.callResume => s.resume

/-- Apply a sequence of stimuli. -/
def SseState.run (s : SseState) (es : List SseStimulus) : SseState :=
  es.foldl SseState.step s

/-! ## Streaming-client claims -/

/-- Helper for C7: a closed state with status `disconnected` and no pending
timer is a fixed point of every stimulus. -/
lemma step_fixed_of_closed (s : SseState) (hc : s.closed = true)
    (hs : s.status = ConnStatus.disconnected) (hp : s.pendingReconnect = none) :
    ∀ e : SseStimulus, s.step e = s := by
  obtain ⟨rd, cl, pa, st, pr, cc⟩ := s
  have hc' : cl = true := hc
  have hs' : st = ConnStatus.disconnected := hs
  have hp' : pr = none := hp
  subst hc'
  subst hs'
  subst hp'
  intro e
  cases e <;>
    simp [SseState.step, SseState.connect, SseState.fireReconnect,
      SseState.onStreamError, SseState.onStreamDone, SseState.updateStatus,
      SseState.scheduleReconnect, SseState.pause, SseState.resume]

/-- C7: after `close()` the status is `disconnected`, the pending reconnect
timer is cancelled, and the closed state is a fixed point of every later
stimulus sequence — in particular no stimulus (including forcibly terminating
the already-closed connection) ever runs `connect()` again or increases the
connection attempt count. -/
theorem no_reconnect_after_close (s : SseState) (es : List SseStimulus) :
    (s.close).status = ConnStatus.disconnected
    ∧ (s.close).closed = true
    ∧ (s.close).pendingReconnect = none
    ∧ (s.close).run es = s.close
    ∧ ((s.close).run es).connectCount = s.connectCount := by
  have hfix : ∀ e, (s.close).step e = s.close :=
    step_fixed_of_closed s.close rfl rfl rfl
  have hrun : (s.close).run es = s.close := by
    induction es with
    | nil => rfl
    | cons e t ih =>
      show ((s.close).step e).run t = s.close
      rw [hfix e]
      exact ih
  exact ⟨rfl, rfl, rfl, hrun, by rw [hrun]; rfl⟩

/-- C2 counterexample: when the reader reports `done` on a connected stream,
the status transitions to `disconnected`, not to `error` as claimed. -/
theorem stream_done_status_counterexample :
    ((SseState.initial.connect.onFetchSuccess).onStreamDone).status
        = ConnStatus.disconnected
    ∧ ((SseState.initial.connect.onFetchSuccess).onStreamDone).status
        ≠ ConnStatus.error := by
  refine ⟨by decide, by decide⟩

/-- C2 (amended): when the stream body is exhausted without an explicit error,
the client transitions to `disconnected` (not `error`) and then schedules a
reconnect after the current retry delay, which is left unchanged by the
scheduling itself. -/
theorem stream_done_schedules_reconnect (s : SseState) (hc : s.closed = false) :
    (s.onStreamDone).status = ConnStatus.disconnected
    ∧ (s.onStreamDone).pendingReconnect = some s.retryDelay
    ∧ (s.onStreamDone).retryDelay = s.retryDelay := by
  refine ⟨?_, ?_, ?_⟩ <;>
    simp [SseState.onStreamDone, SseState.updateStatus, SseState.scheduleReconnect, hc]

/-- Witness for C2 at the concrete freshly-connected state. -/
theorem stream_done_schedules_reconnect_witness :
    ((SseState.initial.connect.onFetchSuccess).onStreamDone).pendingReconnect
      = some 1000 :=
  (stream_done_schedules_reconnect (SseState.initial.connect.onFetchSuccess)
    (by decide)).2.1

/-- Helper modelling one full failure cycle: the stream fails (scheduling a
reconnect after the current delay) and the timer later fires (running
`connect()` and doubling the delay). Returns the wait before the reconnect
attempt together with the post-attempt state. -/
def SseState.failWaitFire (s : SseState) : Nat × SseState :=
  let s1 := s.onStreamError
  (s1.pendingReconnect.getD 0, s1.fireReconnect)

/-- Cumulative time offsets of the reconnect attempts triggered by `n`
consecutive connection failures. -/
def reconnectOffsets : SseState → Nat → List Nat
  | _, 0 => []
  | s, n + 1 =>
    let r := s.failWaitFire
    r.1 :: (reconnectOffsets r.2 n).map (fun x => x + r.1)

/-- Helper for C4: closed form of one failure cycle on a live, unpaused
client. -/
lemma failWaitFire_eq (s : SseState) (hc : s.closed = false) (hp : s.paused = false) :
    s.failWaitFire =
      (s.retryDelay,
        { retryDelay := min (s.retryDelay * 2) MAX_RETRY_DELAY, closed := false,
          paused := false, status := ConnStatus.connecting,
          pendingReconnect := none, connectCount := s.connectCount + 1 }) := by
  obtain ⟨rd, cl, pa, st, pr, cc⟩ := s
  have hc' : cl = false := hc
  have hp' : pa = false := hp
  subst hc'
  subst hp'
  simp [SseState.failWaitFire, SseState.onStreamError, SseState.fireReconnect,
    SseState.connect, SseState.scheduleReconnect, SseState.updateStatus]

/-- C4: starting from the initial 1000 ms retry delay on a live client, each
failure schedules the next reconnect after the current delay and the firing
timer doubles the delay (capped at 30000 ms), so three consecutive failures
produce reconnect attempts at cumulative offsets 1000 ms, 3000 ms and 7000 ms;
every successful connection resets the delay to the 1000 ms minimum, so the
next failure schedules its reconnect after 1000 ms again; the cap is an
invariant of the doubling. -/
theorem backoff_doubling_and_reset (s : SseState)
    (hc : s.closed = false) (hp : s.paused = false)
    (hd : s.retryDelay = MIN_RETRY_DELAY) :
    reconnectOffsets s 3 = [1000, 3000, 7000]
    ∧ (∀ t : SseState, (t.onFetchSuccess).retryDelay = MIN_RETRY_DELAY)
    ∧ (∀ t : SseState, t.closed = false →
        ((t.onFetchSuccess).onStreamError).pendingReconnect = some MIN_RETRY_DELAY)
    ∧ (∀ t : SseState, t.retryDelay ≤ MAX_RETRY_DELAY →
        (t.fireReconnect).retryDelay ≤ MAX_RETRY_DELAY) := by
  refine ⟨?_, ?_, ?_, ?_⟩
  · have h1 := failWaitFire_eq s hc hp
    rw [hd] at h1
    rw [reconnectOffsets, reconnectOffsets, reconnectOffsets, reconnectOffsets]
    rw [h1]
    rw [failWaitFire_eq _ rfl rfl]
    rw [failWaitFire_eq _ rfl rfl]
    simp [MIN_RETRY_DELAY, MAX_RETRY_DELAY]
  · intro t
    simp [SseState.onFetchSuccess, SseState.updateStatus]
  · intro t ht
    simp [SseState.onFetchSuccess, SseState.updateStatus, SseState.onStreamError,
      SseState.scheduleReconnect, ht]
  · intro t ht
    rw [SseState.fireReconnect]
    cases hpr : t.pendingReconnect with
    | none => exact ht
    | some d =>
      simp only
      split_ifs with hcl
      · exact ht
      · simp [SseState.connect, SseState.updateStatus, min_le_right]

/-- Witness for C4 at the freshly constructed client state. -/
theorem backoff_doubling_and_reset_witness :
    reconnectOffsets SseState.initial 3 = [1000, 3000, 7000] :=
  (backoff_doubling_and_reset SseState.initial (by decide) (by decide) (by decide)).1

/-! ## FlipswitchProvider coordinator (provider.ts)

Model of the provider fields driving polling fallback and change handling:
`sseRetryCount`, `maxSseRetries`, `enablePollingFallback`,
`isPollingFallbackActive`, the polling interval timer (as a `Bool` for
whether a `setInterval` handle is held), and the provider status. -/

/-- Model of `ClientProviderStatus`. -/
inductive ProviderStatus where
  | NOT_READY
  | READY
  | ERROR
  | STALE
deriving DecidableEq, Repr

/-- Mutable coordinator state of a `FlipswitchProvider` instance. -/
structure ProviderState where
  sseRetryCount : Nat
  maxSseRetries : Nat
  enablePollingFallback : Bool
  isPollingFallbackActive : Bool
  pollingTimer : Bool
  status : ProviderStatus
deriving DecidableEq, Repr

/-- Model of `stopPolling`: clears the interval and the active flag, but only
when a timer handle is held. -/
def ProviderState.stopPolling (p : ProviderState) : ProviderState :=
  if p.pollingTimer then
    { p with pollingTimer := false, isPollingFallbackActive := false }
  else p

/-- Model of `startPollingFallback`: no-op when already active or when the
fallback is disabled; otherwise set the active flag and start the interval. -/
def ProviderState.startPollingFallback (p : ProviderState) : ProviderState :=
  if p.isPollingFallbackActive || !p.enablePollingFallback then p
  else { p with isPollingFallbackActive := true, pollingTimer := true }

/-- Model of the SSE status handler installed by `startSseConnection`: on
`error`, increment the retry count, start the polling fallback once the count
reaches `maxSseRetries` (fallback enabled), and go `STALE`; on `connected`,
reset the retry count, stop the fallback if active, and promote `STALE` to
`READY`; other statuses only forward to the user callback. -/
def ProviderState.onSseStatus (p : ProviderState) : ConnStatus → ProviderState
  | ConnStatus.error =>
    let p1 := { p with sseRetryCount := p.sseRetryCount + 1 }
    let p2 :=
      if p1.sseRetryCount ≥ p1.maxSseRetries && p1.enablePollingFallback then
        p1.startPollingFallback
      else p1
    { p2 with status := ProviderStatus.STALE }
  | ConnStatus.connected =>
    let p1 := { p with sseRetryCount := 0 }
    let p2 := if p1.isPollingFallbackActive then p1.stopPolling else p1
    if p2.status = ProviderStatus.STALE then
      { p2 with status := ProviderStatus.READY }
    else p2
  | _ => p

/-- Iterated `error` reports from the streaming client. -/
def ProviderState.errIter (p : ProviderState) : Nat → ProviderState
  | 0 => p
  | n + 1 => (p.errIter n).onSseStatus ConnStatus.error


/-! ## Coordinator claims -/

/-- Helper for C5: field effects of one `error` report from the streaming
client. -/
lemma onSseStatus_error_proj (p : ProviderState) :
    (p.onSseStatus ConnStatus.error).sseRetryCount = p.sseRetryCount + 1
    ∧ (p.onSseStatus ConnStatus.error).maxSseRetries = p.maxSseRetries
    ∧ (p.onSseStatus ConnStatus.error).enablePollingFallback = p.enablePollingFallback
    ∧ (p.sseRetryCount + 1 < p.maxSseRetries →
        (p.onSseStatus ConnStatus.error).isPollingFallbackActive
            = p.isPollingFallbackActive
        ∧ (p.onSseStatus ConnStatus.error).pollingTimer = p.pollingTimer)
    ∧ (p.sseRetryCount + 1 ≥ p.maxSseRetries → p.enablePollingFallback = true →
        (p.onSseStatus ConnStatus.error).isPollingFallbackActive = true
        ∧ (p.isPollingFallbackActive = false →
            (p.onSseStatus ConnStatus.error).pollingTimer = true)) := by
  obtain ⟨rc, mx, en, ia, pt, st⟩ := p
  refine ⟨?_, ?_, ?_, ?_, ?_⟩
  · simp [ProviderState.onSseStatus, ProviderState.startPollingFallback]
    split_ifs <;> rfl
  · simp [ProviderState.onSseStatus, ProviderState.startPollingFallback]
    split_ifs <;> rfl
  · simp [ProviderState.onSseStatus, ProviderState.startPollingFallback]
    split_ifs <;> rfl
  · intro hlt
    have hlt' : rc + 1 < mx := hlt
    have hnot : ¬ (rc + 1 ≥ mx) := by omega
    simp [ProviderState.onSseStatus, hnot]
  · intro hge hen
    have hen' : en = true := hen
    subst hen'
    cases ia <;>
      simp [ProviderState.onSseStatus, ProviderState.startPollingFallback, hge]

/-- Helper for C5: field effects of one `connected` report from the streaming
client. -/
lemma onSseStatus_connected_proj (p : ProviderState) :
    (p.onSseStatus ConnStatus.connected).sseRetryCount = 0
    ∧ (p.isPollingFallbackActive = true → p.pollingTimer = true →
        (p.onSseStatus ConnStatus.connected).isPollingFallbackActive = false) := by
  obtain ⟨rc, mx, en, ia, pt, st⟩ := p
  constructor
  · cases ia <;>
      simp [ProviderState.onSseStatus, ProviderState.stopPolling] <;>
      split_ifs <;> rfl
  · intro hia hpt
    have hia' : ia = true := hia
    have hpt' : pt = true := hpt
    subst hia'
    subst hpt'
    simp [ProviderState.onSseStatus, ProviderState.stopPolling]
    split_ifs <;> rfl

/-- Helper for C5: after `i < maxSseRetries` consecutive errors from a clean
start, the retry count is `i` and the fallback state is untouched. -/
lemma errIter_below (p : ProviderState) (h0 : p.sseRetryCount = 0) :
    ∀ i, i < p.maxSseRetries →
      (p.errIter i).sseRetryCount = i
      ∧ (p.errIter i).maxSseRetries = p.maxSseRetries
      ∧ (p.errIter i).enablePollingFallback = p.enablePollingFallback
      ∧ (p.errIter i).isPollingFallbackActive = p.isPollingFallbackActive
      ∧ (p.errIter i).pollingTimer = p.pollingTimer := by
  intro i
  induction i with
  | zero =>
    intro _
    exact ⟨h0, rfl, rfl, rfl, rfl⟩
  | succ n ih =>
    intro hlt
    have hn := ih (by omega)
    have hproj := onSseStatus_error_proj (p.errIter n)
    have hcond : (p.errIter n).sseRetryCount + 1 < (p.errIter n).maxSseRetries := by
      rw [hn.1, hn.2.1]
      omega
    have hkeep := hproj.2.2.2.1 hcond
    refine ⟨?_, ?_, ?_, ?_, ?_⟩
    · show ((p.errIter n).onSseStatus ConnStatus.error).sseRetryCount = n + 1
      rw [hproj.1, hn.1]
    · show ((p.errIter n).onSseStatus ConnStatus.error).maxSseRetries = p.maxSseRetries
      rw [hproj.2.1, hn.2.1]
    · show ((p.errIter n).onSseStatus ConnStatus.error).enablePollingFallback
          = p.enablePollingFallback
      rw [hproj.2.2.1, hn.2.2.1]
    · show ((p.errIter n).onSseStatus ConnStatus.error).isPollingFallbackActive
          = p.isPollingFallbackActive
      rw [hkeep.1, hn.2.2.2.1]
    · show ((p.errIter n).onSseStatus ConnStatus.error).pollingTimer = p.pollingTimer
      rw [hkeep.2, hn.2.2.2.2]

/-- C5: with the polling fallback enabled and a clean retry state, the
`maxSseRetries`-th consecutive SSE `error` report activates the polling
fallback (`isPollingActive()` becomes true), and the next `connected` report
stops the fallback (`isPollingActive()` becomes false) and resets the
streaming retry counter to zero. -/
theorem polling_fallback_activation (p : ProviderState)
    (hen : p.enablePollingFallback = true)
    (h0 : p.sseRetryCount = 0)
    (hia : p.isPollingFallbackActive = false)
    (_hit : p.pollingTimer = false)
    (hmax : 1 ≤ p.maxSseRetries) :
    (p.errIter (p.maxSseRetries - 1)).isPollingFallbackActive = false
    ∧ (p.errIter p.maxSseRetries).isPollingFallbackActive = true
    ∧ ((p.errIter p.maxSseRetries).onSseStatus ConnStatus.connected).isPollingFallbackActive
        = false
    ∧ ((p.errIter p.maxSseRetries).onSseStatus ConnStatus.connected).sseRetryCount = 0 := by
  have hbelow := errIter_below p h0 (p.maxSseRetries - 1) (by omega)
  have hiter : p.errIter p.maxSseRetries
      = (p.errIter (p.maxSseRetries - 1)).onSseStatus ConnStatus.error := by
    have h : p.maxSseRetries = (p.maxSseRetries - 1) + 1 := by omega
    rw [h]
    rfl
  have hproj := onSseStatus_error_proj (p.errIter (p.maxSseRetries - 1))
  have hge : (p.errIter (p.maxSseRetries - 1)).sseRetryCount + 1
      ≥ (p.errIter (p.maxSseRetries - 1)).maxSseRetries := by
    rw [hbelow.1, hbelow.2.1]
    omega
  have hqen : (p.errIter (p.maxSseRetries - 1)).enablePollingFallback = true := by
    rw [hbelow.2.2.1, hen]
  have hqia : (p.errIter (p.maxSseRetries - 1)).isPollingFallbackActive = false := by
    rw [hbelow.2.2.2.1, hia]
  have htrig := hproj.2.2.2.2 hge hqen
  have hactive : (p.errIter p.maxSseRetries).isPollingFallbackActive = true := by
    rw [hiter]
    exact htrig.1
  have htimer : (p.errIter p.maxSseRetries).pollingTimer = true := by
    rw [hiter]
    exact htrig.2 hqia
  have hconn := onSseStatus_connected_proj (p.errIter p.maxSseRetries)
  exact ⟨hqia, hactive, hconn.2 hactive htimer, hconn.1⟩

/-- Concrete clean provider state with a retry threshold of 1. -/
def c5Provider : ProviderState :=
  { sseRetryCount := 0, maxSseRetries := 1, enablePollingFallback := true,
    isPollingFallbackActive := false, pollingTimer := false,
    status := ProviderStatus.READY }

/-- Witness for C5 at the concrete provider state with threshold 1. -/
theorem polling_fallback_activation_witness :
    (c5Provider.errIter 1).isPollingFallbackActive = true
    ∧ ((c5Provider.errIter 1).onSseStatus ConnStatus.connected).isPollingFallbackActive
        = false
    ∧ ((c5Provider.errIter 1).onSseStatus ConnStatus.connected).sseRetryCount = 0 := by
  have h := polling_fallback_activation c5Provider
    (by decide) (by decide) (by decide) (by decide) (by decide)
  exact ⟨h.2.1, h.2.2.1, h.2.2.2⟩

/-! ## Change-event handling by the coordinator (provider.ts, handleFlagChange)

Model of `FlipswitchProvider.handleFlagChange` as the ordered list of its
observable effects, with the outcome of the OFREP re-fetch
(`ofrepProvider.onContextChange`) supplied as a parameter; the `try`/`catch`
around the re-fetch is modelled with `Except`. -/

/-- Observable effects of `handleFlagChange`. -/
inductive ProviderEffect where
  | userFlagChangeCallback : FlagChangeEvent → ProviderEffect
  | browserCacheInvalidate : Option String → ProviderEffect
  | refreshAttempt : Bool → ProviderEffect
  | logWarning : ProviderEffect
  | emitConfigurationChanged : ProviderEffect
deriving DecidableEq, Repr

/-- Outcome of `await this.ofrepProvider.onContextChange(...)`: a rejected
promise is an `Except.error`. -/
def refreshOutcome (refreshFails : Bool) : Except Unit Unit :=
  if refreshFails then Except.error () else Except.ok ()

/-- Model of `handleFlagChange`: invoke the user callback with the raw event;
invalidate the browser cache per the key (JS truthiness); try the re-fetch,
catching a failure with only a warning log; finally emit
`ConfigurationChanged`. Returns the effect list in program order and the
coordinator state, which the method never mutates. -/
def handleFlagChangeRun (p : ProviderState) (hasBrowserCache refreshFails : Bool)
    (e : FlagChangeEvent) : List ProviderEffect × ProviderState :=
  let l1 := [ProviderEffect.userFlagChangeCallback e]
  let l2 :=
    if hasBrowserCache then
      if jsTruthy e.flagKey then l1 ++ [ProviderEffect.browserCacheInvalidate e.flagKey]
      else l1 ++ [ProviderEffect.browserCacheInvalidate none]
    else l1
  let l3 :=
    match refreshOutcome refreshFails with
    | Except.ok _ => l2 ++ [ProviderEffect.refreshAttempt true]
    | Except.error _ =>
      l2 ++ [ProviderEffect.refreshAttempt false, ProviderEffect.logWarning]
  (l3 ++ [ProviderEffect.emitConfigurationChanged], p)

/-- C8: on a `ChangeEvent` the coordinator always invokes the user change
callback with the raw event first and always ends by emitting the
configuration-changed notification — also when the triggered re-fetch fails,
in which case the failure is only logged — and the handler leaves the
coordinator state (in particular the connection status) unchanged. -/
theorem change_notification_despite_refresh_failure (p : ProviderState)
    (hbc rf : Bool) (e : FlagChangeEvent) :
    (handleFlagChangeRun p hbc rf e).1.head?
        = some (ProviderEffect.userFlagChangeCallback e)
    ∧ (handleFlagChangeRun p hbc rf e).1.getLast?
        = some ProviderEffect.emitConfigurationChanged
    ∧ (handleFlagChangeRun p hbc rf e).2 = p
    ∧ (rf = true → ProviderEffect.logWarning ∈ (handleFlagChangeRun p hbc rf e).1
        ∧ ProviderEffect.emitConfigurationChanged ∈ (handleFlagChangeRun p hbc rf e).1) := by
  cases hbc <;> cases rf <;> cases ht : jsTruthy e.flagKey <;>
    simp [handleFlagChangeRun, refreshOutcome, ht]

/-- Concrete provider state for the C8 witness. -/
def c8Provider : ProviderState :=
  { sseRetryCount := 0, maxSseRetries := 3, enablePollingFallback := true,
    isPollingFallbackActive := false, pollingTimer := false,
    status := ProviderStatus.READY }

/-- Witness for C8: with a failing re-fetch, the warning is logged and the
configuration-changed notification still fires, the state untouched. -/
theorem change_notification_despite_refresh_failure_witness :
    (handleFlagChangeRun c8Provider true true
        { flagKey := some "my-flag", timestamp := some "2025-01-01T00:00:00Z" }).1.getLast?
      = some ProviderEffect.emitConfigurationChanged
    ∧ ProviderEffect.logWarning ∈ (handleFlagChangeRun c8Provider true true
        { flagKey := some "my-flag", timestamp := some "2025-01-01T00:00:00Z" }).1
    ∧ (handleFlagChangeRun c8Provider true true
        { flagKey := some "my-flag", timestamp := some "2025-01-01T00:00:00Z" }).2
      = c8Provider := by
  have h := change_notification_despite_refresh_failure c8Provider true true
    { flagKey := some "my-flag", timestamp := some "2025-01-01T00:00:00Z" }
  exact ⟨h.2.1, (h.2.2.2 rfl).1, h.2.2.1⟩

end Flipswitch
